import Mathlib

/-!
Verification of the mkfs core of pybtrfs (`src/mkfs/mkfs.c`, the Python C
extension wrapping btrfs-progs mkfs).  The embedding below translates the
static helpers copied from `mkfs/main.c` and the `pybtrfs_mkfs` control flow
into pure Lean functions:

* the block-group tree is a list of `btrfs_block_group_item` records in key
  order (the tree only ever yields block-group items to this code;
  `next_block_group` skips everything else);
* `btrfs_search_slot` on a block-group key is `bg_tree_search`, returning the
  first item whose objectid is at least the searched objectid together with
  the items before and after it;
* chunk allocation (`btrfs_alloc_chunk`) is fed from an explicit plan: a list
  of `(start, size)` pairs consumed in order, the empty plan standing for an
  allocator that reports `-ENOSPC`;
* u64 arithmetic is `Nat` arithmetic reduced modulo `2 ^ 64` where the C code
  can wrap (ledger increments/decrements, the running search key).
-/

namespace Pybtrfs

/- ── constants from kernel-shared/uapi/btrfs_tree.h ────────────────────── -/

def BTRFS_BLOCK_GROUP_DATA : Nat := 1
def BTRFS_BLOCK_GROUP_SYSTEM : Nat := 2
def BTRFS_BLOCK_GROUP_METADATA : Nat := 4
def BTRFS_BLOCK_GROUP_RAID0 : Nat := 8
def BTRFS_BLOCK_GROUP_RAID1 : Nat := 16
def BTRFS_BLOCK_GROUP_DUP : Nat := 32
def BTRFS_BLOCK_GROUP_RAID10 : Nat := 64
def BTRFS_BLOCK_GROUP_RAID5 : Nat := 128
def BTRFS_BLOCK_GROUP_RAID6 : Nat := 256
def BTRFS_BLOCK_GROUP_RAID1C3 : Nat := 512
def BTRFS_BLOCK_GROUP_RAID1C4 : Nat := 1024

def BTRFS_BLOCK_GROUP_TYPE_MASK : Nat :=
  BTRFS_BLOCK_GROUP_DATA ||| BTRFS_BLOCK_GROUP_SYSTEM ||| BTRFS_BLOCK_GROUP_METADATA

def BTRFS_BLOCK_GROUP_PROFILE_MASK : Nat :=
  BTRFS_BLOCK_GROUP_RAID0 ||| BTRFS_BLOCK_GROUP_RAID1 ||| BTRFS_BLOCK_GROUP_DUP |||
  BTRFS_BLOCK_GROUP_RAID10 ||| BTRFS_BLOCK_GROUP_RAID5 ||| BTRFS_BLOCK_GROUP_RAID6 |||
  BTRFS_BLOCK_GROUP_RAID1C3 ||| BTRFS_BLOCK_GROUP_RAID1C4

def BTRFS_BLOCK_GROUP_RAID56_MASK : Nat :=
  BTRFS_BLOCK_GROUP_RAID5 ||| BTRFS_BLOCK_GROUP_RAID6

/- incompat feature bits (kernel uapi btrfs.h) used by pybtrfs_mkfs -/

def BTRFS_FEATURE_INCOMPAT_MIXED_GROUPS : Nat := 4
def BTRFS_FEATURE_INCOMPAT_BIG_METADATA : Nat := 32
def BTRFS_FEATURE_INCOMPAT_RAID56 : Nat := 128
def BTRFS_FEATURE_INCOMPAT_RAID1C34 : Nat := 2048

/- mkfs profile defaults (common/fsfeatures.h of the vendored btrfs-progs) -/

def BTRFS_MKFS_DEFAULT_META_ONE_DEVICE : Nat := BTRFS_BLOCK_GROUP_DUP
def BTRFS_MKFS_DEFAULT_META_MULTI_DEVICE : Nat := BTRFS_BLOCK_GROUP_RAID1
def BTRFS_MKFS_DEFAULT_DATA_MULTI_DEVICE : Nat := BTRFS_BLOCK_GROUP_RAID0

def EINVAL : Int := 22
def ENOSPC : Int := 28

/- ── u64 arithmetic ────────────────────────────────────────────────────── -/

def U64 : Nat := 2 ^ 64

/-- u64 addition: wraps modulo `2 ^ 64` like the C `+` on `u64`. -/
def u64add (a b : Nat) : Nat := (a + b) % U64

/-- u64 subtraction: `a - b` with wrap-around modulo `2 ^ 64`. -/
def u64sub (a b : Nat) : Nat := (a + (U64 - b % U64)) % U64

/- ── data model ────────────────────────────────────────────────────────── -/

/-- `struct mkfs_allocation`: the allocation ledger (all fields u64). -/
structure mkfs_allocation where
  data : Nat
  metadata : Nat
  mixed : Nat
  system : Nat
  remap : Nat
deriving DecidableEq

/-- A block-group item together with its key: `objectid` is the chunk start,
`offset` is the chunk size, `flags` is type|profile, `used` the bytes used. -/
structure btrfs_block_group_item where
  objectid : Nat
  offset : Nat
  flags : Nat
  used : Nat
deriving DecidableEq

/- ── is_temp_block_group (part_002 lines 424-455) ──────────────────────── -/

/-- `is_temp_block_group`: a zero-used group whose profile differs from the
final profile chosen for its type.  Mirrors the C switch: DATA and
DATA|METADATA compare against the data profile, METADATA against the
metadata profile, SYSTEM against the system profile; every other type mask
(and every nonzero `used`) is not temporary. -/
def is_temp_block_group (bg : btrfs_block_group_item)
    (data_profile meta_profile sys_profile : Nat) : Bool :=
  let flag_type := bg.flags &&& BTRFS_BLOCK_GROUP_TYPE_MASK
  let flag_profile := bg.flags &&& BTRFS_BLOCK_GROUP_PROFILE_MASK
  if bg.used ≠ 0 then false
  else if flag_type = BTRFS_BLOCK_GROUP_DATA ∨
          flag_type = (BTRFS_BLOCK_GROUP_DATA ||| BTRFS_BLOCK_GROUP_METADATA) then
    flag_profile ≠ data_profile &&& BTRFS_BLOCK_GROUP_PROFILE_MASK
  else if flag_type = BTRFS_BLOCK_GROUP_METADATA then
    flag_profile ≠ meta_profile &&& BTRFS_BLOCK_GROUP_PROFILE_MASK
  else if flag_type = BTRFS_BLOCK_GROUP_SYSTEM then
    flag_profile ≠ sys_profile &&& BTRFS_BLOCK_GROUP_PROFILE_MASK
  else false

/- ── cleanup_temp_chunks (part_002 lines 475-564) ──────────────────────── -/

/-- The ledger decrement performed when `cleanup_temp_chunks` removes a block
group (part_002 lines 537-549): the field selected by the type mask loses the
group's size (`found_key.offset`); an unmatched mask updates nothing. -/
def cleanup_ledger_update (flags offset : Nat) (alloc : mkfs_allocation) :
    mkfs_allocation :=
  if flags &&& BTRFS_BLOCK_GROUP_TYPE_MASK = BTRFS_BLOCK_GROUP_DATA then
    { alloc with data := u64sub alloc.data offset }
  else if flags &&& BTRFS_BLOCK_GROUP_TYPE_MASK = BTRFS_BLOCK_GROUP_METADATA then
    { alloc with metadata := u64sub alloc.metadata offset }
  else if flags &&& BTRFS_BLOCK_GROUP_TYPE_MASK = BTRFS_BLOCK_GROUP_SYSTEM then
    { alloc with system := u64sub alloc.system offset }
  else if flags &&& BTRFS_BLOCK_GROUP_TYPE_MASK =
      (BTRFS_BLOCK_GROUP_METADATA ||| BTRFS_BLOCK_GROUP_DATA) then
    { alloc with mixed := u64sub alloc.mixed offset }
  else alloc

/-- `btrfs_search_slot` for key `(cur, BTRFS_BLOCK_GROUP_ITEM_KEY, 0)` on the
block-group items of the tree (in key order): the first item whose objectid
is `≥ cur`, with the items before and after it.  `none` models the search
running past the last item, which the C loop detects via
`found_key.objectid < key.objectid` and exits on. -/
def bg_tree_search (cur : Nat) :
    List btrfs_block_group_item →
    Option (List btrfs_block_group_item × btrfs_block_group_item ×
            List btrfs_block_group_item)
  | [] => none
  | it :: rest =>
    if cur ≤ it.objectid then some ([], it, rest)
    else
      match bg_tree_search cur rest with
      | some (pre, f, post) => some (it :: pre, f, post)
      | none => none

/-- The `while (1)` loop of `cleanup_temp_chunks`.  Each iteration searches
from the tree root for the first block-group item at or after the running
key, removes it (and applies the ledger decrement) when
`is_temp_block_group` holds, then advances the key to
`found_key.objectid + found_key.offset` (u64 addition).  The third component
of the result is the trace of removed items in removal order.  `fuel` bounds
the number of iterations so the recursion is total; `none` means the bound
was exhausted (the C loop would still be running). -/
def cleanup_loop (data_profile meta_profile sys_profile : Nat) :
    Nat → Nat → mkfs_allocation → List btrfs_block_group_item →
    Option (mkfs_allocation × List btrfs_block_group_item ×
            List btrfs_block_group_item)
  | 0, _, _, _ => none
  | fuel + 1, cur, alloc, items =>
    match bg_tree_search cur items with
    | none => some (alloc, items, [])
    | some (pre, it, post) =>
      if is_temp_block_group it data_profile meta_profile sys_profile then
        match cleanup_loop data_profile meta_profile sys_profile fuel
            (u64add it.objectid it.offset)
            (cleanup_ledger_update it.flags it.offset alloc) (pre ++ post) with
        | none => none
        | some (a, rem, removed) => some (a, rem, it :: removed)
      else
        cleanup_loop data_profile meta_profile sys_profile fuel
          (u64add it.objectid it.offset) alloc items

/-- `cleanup_temp_chunks` (part_002 lines 475-564) on a block-group tree.
The `do_discard` parameter is accepted and ignored exactly as in the C code
(`(void)do_discard`).  One search per block-group item plus a final failing
search suffices on any well-formed tree, hence the fuel `items.length + 1`. -/
def cleanup_temp_chunks (alloc : mkfs_allocation)
    (data_profile meta_profile sys_profile : Nat) (do_discard : Bool)
    (items : List btrfs_block_group_item) :
    Option (mkfs_allocation × List btrfs_block_group_item ×
            List btrfs_block_group_item) :=
  cleanup_loop data_profile meta_profile sys_profile (items.length + 1) 0 alloc items

/- ── create_one_raid_group / create_raid_groups (part_002 349-422) ─────── -/

/-- `create_one_raid_group` after a successful `btrfs_alloc_chunk` returning
`(chunk_start, chunk_size)`: the block group is materialized with the given
flags and zero `used`, and the ledger field matching
`type & BTRFS_BLOCK_GROUP_TYPE_MASK` grows by `chunk_size`; any unrecognized
type mask yields `-EINVAL` (the vendored `exit(1)` was already turned into an
error return by this repository). -/
def create_one_raid_group (type_ chunk_start chunk_size : Nat)
    (alloc : mkfs_allocation) :
    Except Int (mkfs_allocation × btrfs_block_group_item) :=
  let bg : btrfs_block_group_item := ⟨chunk_start, chunk_size, type_, 0⟩
  if type_ &&& BTRFS_BLOCK_GROUP_TYPE_MASK = BTRFS_BLOCK_GROUP_DATA then
    .ok ({ alloc with data := u64add alloc.data chunk_size }, bg)
  else if type_ &&& BTRFS_BLOCK_GROUP_TYPE_MASK = BTRFS_BLOCK_GROUP_METADATA then
    .ok ({ alloc with metadata := u64add alloc.metadata chunk_size }, bg)
  else if type_ &&& BTRFS_BLOCK_GROUP_TYPE_MASK = BTRFS_BLOCK_GROUP_SYSTEM then
    .ok ({ alloc with system := u64add alloc.system chunk_size }, bg)
  else if type_ &&& BTRFS_BLOCK_GROUP_TYPE_MASK =
      (BTRFS_BLOCK_GROUP_METADATA ||| BTRFS_BLOCK_GROUP_DATA) then
    .ok ({ alloc with mixed := u64add alloc.mixed chunk_size }, bg)
  else .error (-EINVAL)

/-- One `btrfs_alloc_chunk` + `create_one_raid_group` step against the chunk
plan: an exhausted plan is the allocator's `-ENOSPC`. -/
def create_one_from_plan (type_ : Nat)
    (alloc : mkfs_allocation) (chunks : List (Nat × Nat)) :
    Except Int (mkfs_allocation × List (Nat × Nat) × btrfs_block_group_item) :=
  match chunks with
  | [] => .error (-ENOSPC)
  | c :: rest =>
    match create_one_raid_group type_ c.1 c.2 alloc with
    | .error e => .error e
    | .ok (a, bg) => .ok (a, rest, bg)

/-- `create_raid_groups` (part_002 lines 388-422): when the metadata profile
is nonzero, first a SYSTEM group then a METADATA (DATA|METADATA in mixed
mode) group, both at the metadata profile; then, when not mixed and a data
profile was requested, a DATA group at the data profile.  Returns the final
ledger and the created groups in creation order. -/
def create_raid_groups (data_profile metadata_profile : Nat) (mixed : Bool)
    (alloc : mkfs_allocation) (chunks : List (Nat × Nat)) :
    Except Int (mkfs_allocation × List btrfs_block_group_item) :=
  let step1 : Except Int (mkfs_allocation × List (Nat × Nat) ×
      List btrfs_block_group_item) :=
    if metadata_profile ≠ 0 then
      match create_one_from_plan
          (BTRFS_BLOCK_GROUP_SYSTEM ||| metadata_profile) alloc chunks with
      | .error e => .error e
      | .ok (a1, cs1, bg1) =>
        let meta_flags :=
          if mixed then BTRFS_BLOCK_GROUP_METADATA ||| BTRFS_BLOCK_GROUP_DATA
          else BTRFS_BLOCK_GROUP_METADATA
        match create_one_from_plan (meta_flags ||| metadata_profile) a1 cs1 with
        | .error e => .error e
        | .ok (a2, cs2, bg2) => .ok (a2, cs2, [bg1, bg2])
    else .ok (alloc, chunks, [])
  match step1 with
  | .error e => .error e
  | .ok (a, cs, bgs) =>
    if ¬ mixed ∧ data_profile ≠ 0 then
      match create_one_from_plan
          (BTRFS_BLOCK_GROUP_DATA ||| data_profile) a cs with
      | .error e => .error e
      | .ok (a3, _, bg3) => .ok (a3, bgs ++ [bg3])
    else .ok (a, bgs)

/- ── pybtrfs_mkfs profile selection (part_002 lines 820-837) ───────────── -/

/-- Metadata profile auto-selection: a negative `metadata_profile` argument
picks the single- or multi-device default by device count, or none at all in
mixed mode; a non-negative argument is used as given. -/
def select_meta_profile (metadata_profile : Int) (mixed : Bool)
    (device_count : Nat) : Nat :=
  if metadata_profile < 0 then
    if ¬ mixed then
      if device_count > 1 then BTRFS_MKFS_DEFAULT_META_MULTI_DEVICE
      else BTRFS_MKFS_DEFAULT_META_ONE_DEVICE
    else 0
  else metadata_profile.toNat

/-- Data profile auto-selection: a zero `data_profile` argument becomes the
multi-device default only when not mixed and more than one device is given. -/
def select_data_profile (data_profile : Nat) (mixed : Bool)
    (device_count : Nat) : Nat :=
  if ¬ mixed ∧ data_profile = 0 ∧ device_count > 1 then
    BTRFS_MKFS_DEFAULT_DATA_MULTI_DEVICE
  else data_profile

/- ── pybtrfs_mkfs feature flags (part_002 lines 839-857) ───────────────── -/

/-- The incompat feature word built by `pybtrfs_mkfs`: the default feature
set or-ed with the caller's `features` argument, plus MIXED_GROUPS in mixed
mode, RAID56 when either final profile holds a RAID5/RAID6 bit, RAID1C34
when either holds a RAID1C3/RAID1C4 bit, and BIG_METADATA when the node size
exceeds the page size. -/
def build_incompat_flags (base_incompat features_arg data_prof meta_prof : Nat)
    (mixed : Bool) (nodesize pagesize : Nat) : Nat :=
  let f0 := base_incompat ||| features_arg
  let f1 := if mixed then f0 ||| BTRFS_FEATURE_INCOMPAT_MIXED_GROUPS else f0
  let f2 := if (data_prof ||| meta_prof) &&& BTRFS_BLOCK_GROUP_RAID56_MASK ≠ 0 then
      f1 ||| BTRFS_FEATURE_INCOMPAT_RAID56
    else f1
  let f3 := if (data_prof ||| meta_prof) &&&
      (BTRFS_BLOCK_GROUP_RAID1C3 ||| BTRFS_BLOCK_GROUP_RAID1C4) ≠ 0 then
      f2 ||| BTRFS_FEATURE_INCOMPAT_RAID1C34
    else f2
  if nodesize > pagesize then f3 ||| BTRFS_FEATURE_INCOMPAT_BIG_METADATA else f3

/- ── pybtrfs_mkfs control flow (part_002 lines 865-1114) ───────────────── -/

/-- Modelled from the spec: `btrfs_prepare_device` is not part of this
repository (it lives in the vendored btrfs-progs library), so its output is
taken from spec section 4.1: a zero requested byte count probes the device's
real size, otherwise the usable size is validated against (capped at) the
probed size, the smaller of the two becoming the device's usable byte
count. -/
def prepare_usable_size (requested probed : Nat) : Nat :=
  if requested = 0 then probed else min requested probed

/-- Observable outcome of one `pybtrfs_mkfs` run as far as the error-handling
claims are concerned. -/
structure mkfs_model_result where
  ret : Int
  make_btrfs_called : Bool
  committed : Bool
  fds_closed : Bool
deriving DecidableEq

/-- The `pybtrfs_mkfs` pipeline between the join of the preparation workers
and the RAID-group stage (part_002 lines 920-1042), with every vendored
filesystem call taken on its success path; each device contributes its
preparation worker's result code and its probed size.  After the joins only
device 0's code is tested (line 923); a nonzero code or an oversized
explicit byte count (line 929, against `prepare_usable_size`) aborts before
`make_btrfs`, i.e. before the superblock signature is written and before any
transaction commits.  Otherwise `make_btrfs` runs, the bootstrap
transactions commit, and the attach loop (lines 1025-1042) aborts at the
first later device whose preparation code is nonzero — after those commits.
Every abort path runs `out_close`, closing all opened fds. -/
def pybtrfs_mkfs_model (devices : List (Int × Nat)) (byte_count : Nat) :
    mkfs_model_result :=
  let ret0 := (devices.headD (0, 0)).1
  if ret0 ≠ 0 then
    ⟨ret0, false, false, true⟩
  else
    let dev_byte_count := prepare_usable_size byte_count (devices.headD (0, 0)).2
    if byte_count ≠ 0 ∧ byte_count > dev_byte_count then
      ⟨-ENOSPC, false, false, true⟩
    else
      match (devices.drop 1).find? (fun d => d.1 != 0) with
      | some d => ⟨d.1, true, true, true⟩
      | none => ⟨0, true, true, true⟩

/-- The temporary-chunk-cleanup call made by `pybtrfs_mkfs` (part_002 lines
1086-1090): the data and metadata profiles are the auto-selected ones and the
system profile argument is the metadata profile. -/
def mkfs_cleanup_stage (metadata_profile : Int) (data_profile : Nat)
    (mixed : Bool) (device_count : Nat) (alloc : mkfs_allocation)
    (do_discard : Bool) (items : List btrfs_block_group_item) :
    Option (mkfs_allocation × List btrfs_block_group_item ×
            List btrfs_block_group_item) :=
  let meta_profile := select_meta_profile metadata_profile mixed device_count
  let data_prof := select_data_profile data_profile mixed device_count
  cleanup_temp_chunks alloc data_prof meta_profile meta_profile do_discard items

/- ── helper lemmas ─────────────────────────────────────────────────────── -/

/-- u64 subtraction undoes u64 addition below `2 ^ 64`. -/
theorem u64sub_u64add (x s : Nat) (hx : x < U64) (hs : s < U64) :
    u64sub (u64add x s) s = x := by
  have hsle : s ≤ U64 := Nat.le_of_lt hs
  have hsmod : s % U64 = s := Nat.mod_eq_of_lt hs
  unfold u64sub u64add
  rw [hsmod, Nat.mod_add_mod]
  have : x + s + (U64 - s) = x + U64 := by omega
  rw [this, Nat.add_mod_right, Nat.mod_eq_of_lt hx]

/-- A u64 sum that stays below `2 ^ 64` does not wrap. -/
theorem u64add_eq (a b : Nat) (h : a + b < U64) : u64add a b = a + b :=
  Nat.mod_eq_of_lt h

/-- Or-ing a value with no type bits leaves the type mask unchanged. -/
theorem and_type_mask_or (t p : Nat) (hp : p &&& 7 = 0) :
    (t ||| p) &&& 7 = t &&& 7 := by
  apply Nat.eq_of_testBit_eq
  intro i
  have hpi : (p.testBit i && (7:Nat).testBit i) = false := by
    rw [← Nat.testBit_and]
    simp [hp]
  simp only [Nat.testBit_and, Nat.testBit_or]
  cases ht : t.testBit i <;> cases h7 : (7:Nat).testBit i <;> simp_all

/-- Or-ing in a mask makes every bit of the mask present. -/
theorem or_and_self_mask (x c : Nat) : (x ||| c) &&& c = c := by
  apply Nat.eq_of_testBit_eq
  intro i
  simp only [Nat.testBit_and, Nat.testBit_or]
  cases x.testBit i <;> cases c.testBit i <;> rfl

/-- Bits of a mask survive further or-ing. -/
theorem and_mask_of_or (x y c : Nat) (h : x &&& c = c) : (x ||| y) &&& c = c := by
  apply Nat.eq_of_testBit_eq
  intro i
  have hb := congrArg (fun n => n.testBit i) h
  simp only [Nat.testBit_and] at hb
  simp only [Nat.testBit_and, Nat.testBit_or]
  cases hx : x.testBit i <;> cases hc : c.testBit i <;>
    simp_all

/-- `bg_tree_search` finds the first item at or after the searched objectid. -/
theorem bg_tree_search_spec (cur : Nat) (pre : List btrfs_block_group_item)
    (it : btrfs_block_group_item) (post : List btrfs_block_group_item)
    (hpre : ∀ p ∈ pre, p.objectid < cur) (hit : cur ≤ it.objectid) :
    bg_tree_search cur (pre ++ it :: post) = some (pre, it, post) := by
  induction pre with
  | nil => simp [bg_tree_search, hit]
  | cons p ps ih =>
    have hp : ¬ cur ≤ p.objectid := by
      have := hpre p (by simp)
      omega
    have hrec := ih (fun q hq => hpre q (by simp [hq]))
    simp [bg_tree_search, hp, hrec]

/-- `bg_tree_search` past the last item reports `none`. -/
theorem bg_tree_search_none (cur : Nat) (items : List btrfs_block_group_item)
    (h : ∀ p ∈ items, p.objectid < cur) :
    bg_tree_search cur items = none := by
  induction items with
  | nil => rfl
  | cons p ps ih =>
    have hp : ¬ cur ≤ p.objectid := by
      have := h p (by simp)
      omega
    have hrec := ih (fun q hq => h q (by simp [hq]))
    simp [bg_tree_search, hp, hrec]

/-- Characterization of the cleanup loop on a well-formed tree suffix: the
items at or after the running key are pairwise disjoint extents of positive
size below `2 ^ 64`, every earlier item lies strictly before the key, and
then the loop terminates within `rest.length + 1` searches, removes exactly
the temporary items among `rest` (in list order), applies their ledger
decrements left to right, and keeps everything else. -/
theorem cleanup_loop_spec (dp mp sp : Nat) (rest : List btrfs_block_group_item) :
    ∀ (fuel cur : Nat) (alloc : mkfs_allocation)
      (pre : List btrfs_block_group_item),
      rest.length < fuel →
      (∀ p ∈ pre, p.objectid < cur) →
      (∀ r ∈ rest, cur ≤ r.objectid) →
      List.Pairwise (fun a b => a.objectid + a.offset ≤ b.objectid) rest →
      (∀ r ∈ rest, 1 ≤ r.offset) →
      (∀ r ∈ rest, r.objectid + r.offset < U64) →
      cleanup_loop dp mp sp fuel cur alloc (pre ++ rest) =
        some (List.foldl (fun a it => cleanup_ledger_update it.flags it.offset a)
                alloc (rest.filter (fun it => is_temp_block_group it dp mp sp)),
              pre ++ rest.filter (fun it => ! is_temp_block_group it dp mp sp),
              rest.filter (fun it => is_temp_block_group it dp mp sp)) := by
  induction rest with
  | nil =>
    intro fuel cur alloc pre hfuel hpre _ _ _ _
    obtain ⟨f, rfl⟩ : ∃ f, fuel = f + 1 := ⟨fuel - 1, by omega⟩
    have hs : bg_tree_search cur pre = none := bg_tree_search_none cur pre hpre
    simp [cleanup_loop, hs]
  | cons r rs ih =>
    intro fuel cur alloc pre hfuel hpre hge hpair hoff hbound
    obtain ⟨f, rfl⟩ : ∃ f, fuel = f + 1 := ⟨fuel - 1, by omega⟩
    have hs : bg_tree_search cur (pre ++ r :: rs) = some (pre, r, rs) :=
      bg_tree_search_spec cur pre r rs hpre (hge r (by simp))
    have hcur : u64add r.objectid r.offset = r.objectid + r.offset :=
      u64add_eq _ _ (hbound r (by simp))
    have hpair' := List.pairwise_cons.mp hpair
    have hfuel' : rs.length < f := by
      simp only [List.length_cons] at hfuel
      omega
    have hoffr : 1 ≤ r.offset := hoff r (by simp)
    have hcurle : cur ≤ r.objectid := hge r (by simp)
    by_cases htemp : is_temp_block_group r dp mp sp
    · have hrec := ih f (r.objectid + r.offset)
        (cleanup_ledger_update r.flags r.offset alloc) pre hfuel'
        (fun p hp => lt_of_lt_of_le (hpre p hp)
          (le_trans hcurle (Nat.le_add_right _ _)))
        (fun x hx => hpair'.1 x hx)
        hpair'.2
        (fun x hx => hoff x (by simp [hx]))
        (fun x hx => hbound x (by simp [hx]))
      simp [cleanup_loop, hs, htemp, hcur, hrec, List.filter_cons]
    · have hrec := ih f (r.objectid + r.offset) alloc (pre ++ [r]) hfuel'
        (by
          intro p hp
          rcases List.mem_append.mp hp with hp1 | hp2
          · exact lt_of_lt_of_le (hpre p hp1)
              (le_trans hcurle (Nat.le_add_right _ _))
          · have : p = r := by simpa using hp2
            subst this
            omega)
        (fun x hx => hpair'.1 x hx)
        hpair'.2
        (fun x hx => hoff x (by simp [hx]))
        (fun x hx => hbound x (by simp [hx]))
      rw [List.append_assoc, List.singleton_append] at hrec
      simp [cleanup_loop, hs, htemp, hcur, hrec, List.filter_cons,
        List.append_assoc]

/-- `cleanup_temp_chunks` on a well-formed tree: it completes within its
fuel, removes exactly the temporary groups (in tree order), applies their
ledger decrements left to right, and keeps every other item. -/
theorem cleanup_temp_chunks_spec (alloc : mkfs_allocation)
    (dp mp sp : Nat) (d : Bool) (items : List btrfs_block_group_item)
    (hpair : List.Pairwise (fun a b => a.objectid + a.offset ≤ b.objectid) items)
    (hoff : ∀ r ∈ items, 1 ≤ r.offset)
    (hbound : ∀ r ∈ items, r.objectid + r.offset < U64) :
    cleanup_temp_chunks alloc dp mp sp d items =
      some (List.foldl (fun a it => cleanup_ledger_update it.flags it.offset a)
              alloc (items.filter (fun it => is_temp_block_group it dp mp sp)),
            items.filter (fun it => ! is_temp_block_group it dp mp sp),
            items.filter (fun it => is_temp_block_group it dp mp sp)) := by
  have h := cleanup_loop_spec dp mp sp items (items.length + 1) 0 alloc []
    (by omega) (by simp) (fun r _ => Nat.zero_le _) hpair hoff hbound
  simpa [cleanup_temp_chunks] using h

/-- A non-temporary zero-used group's profile matches the final profile
chosen for its type. -/
theorem is_temp_false_profile_eq (bg : btrfs_block_group_item)
    (dp mp sp : Nat) (h : is_temp_block_group bg dp mp sp = false)
    (hused : bg.used = 0) :
    ((bg.flags &&& BTRFS_BLOCK_GROUP_TYPE_MASK = BTRFS_BLOCK_GROUP_DATA ∨
      bg.flags &&& BTRFS_BLOCK_GROUP_TYPE_MASK =
        (BTRFS_BLOCK_GROUP_DATA ||| BTRFS_BLOCK_GROUP_METADATA)) →
      bg.flags &&& BTRFS_BLOCK_GROUP_PROFILE_MASK =
        dp &&& BTRFS_BLOCK_GROUP_PROFILE_MASK) ∧
    (bg.flags &&& BTRFS_BLOCK_GROUP_TYPE_MASK = BTRFS_BLOCK_GROUP_METADATA →
      bg.flags &&& BTRFS_BLOCK_GROUP_PROFILE_MASK =
        mp &&& BTRFS_BLOCK_GROUP_PROFILE_MASK) ∧
    (bg.flags &&& BTRFS_BLOCK_GROUP_TYPE_MASK = BTRFS_BLOCK_GROUP_SYSTEM →
      bg.flags &&& BTRFS_BLOCK_GROUP_PROFILE_MASK =
        sp &&& BTRFS_BLOCK_GROUP_PROFILE_MASK) := by
  refine ⟨?_, ?_, ?_⟩
  · intro hmask
    simp [is_temp_block_group, hused, hmask] at h
    exact h
  · intro hmask
    simp [is_temp_block_group, hused, hmask, BTRFS_BLOCK_GROUP_DATA,
      BTRFS_BLOCK_GROUP_METADATA, BTRFS_BLOCK_GROUP_SYSTEM] at h
    exact h
  · intro hmask
    simp [is_temp_block_group, hused, hmask, BTRFS_BLOCK_GROUP_DATA,
      BTRFS_BLOCK_GROUP_METADATA, BTRFS_BLOCK_GROUP_SYSTEM] at h
    exact h

/- ── claim theorems ────────────────────────────────────────────────────── -/

/-- C1: after `cleanup_temp_chunks` completes successfully given the final
data/metadata/system profiles, no block-group item remains whose `used` is 0
and whose profile bits differ from the final profile for its type, where
`is_temp_block_group` decides temporariness (DATA and DATA|METADATA against
the data profile, METADATA against the metadata profile, SYSTEM against the
system profile; nonzero `used` is never temporary). -/
theorem cleanup_leaves_no_temp_groups
    (alloc : mkfs_allocation) (dp mp sp : Nat) (d : Bool)
    (items : List btrfs_block_group_item)
    (hpair : List.Pairwise (fun a b => a.objectid + a.offset ≤ b.objectid) items)
    (hoff : ∀ r ∈ items, 1 ≤ r.offset)
    (hbound : ∀ r ∈ items, r.objectid + r.offset < U64) :
    ∃ a rem removed,
      cleanup_temp_chunks alloc dp mp sp d items = some (a, rem, removed) ∧
      ∀ bg ∈ rem,
        is_temp_block_group bg dp mp sp = false ∧
        (bg.used = 0 →
          ((bg.flags &&& BTRFS_BLOCK_GROUP_TYPE_MASK = BTRFS_BLOCK_GROUP_DATA ∨
            bg.flags &&& BTRFS_BLOCK_GROUP_TYPE_MASK =
              (BTRFS_BLOCK_GROUP_DATA ||| BTRFS_BLOCK_GROUP_METADATA)) →
            bg.flags &&& BTRFS_BLOCK_GROUP_PROFILE_MASK =
              dp &&& BTRFS_BLOCK_GROUP_PROFILE_MASK) ∧
          (bg.flags &&& BTRFS_BLOCK_GROUP_TYPE_MASK = BTRFS_BLOCK_GROUP_METADATA →
            bg.flags &&& BTRFS_BLOCK_GROUP_PROFILE_MASK =
              mp &&& BTRFS_BLOCK_GROUP_PROFILE_MASK) ∧
          (bg.flags &&& BTRFS_BLOCK_GROUP_TYPE_MASK = BTRFS_BLOCK_GROUP_SYSTEM →
            bg.flags &&& BTRFS_BLOCK_GROUP_PROFILE_MASK =
              sp &&& BTRFS_BLOCK_GROUP_PROFILE_MASK)) := by
  refine ⟨_, _, _, cleanup_temp_chunks_spec alloc dp mp sp d items hpair hoff hbound,
    ?_⟩
  intro bg hbg
  have hmem := List.mem_filter.mp hbg
  have hfalse : is_temp_block_group bg dp mp sp = false := by
    have := hmem.2
    simpa using this
  exact ⟨hfalse, fun hused => is_temp_false_profile_eq bg dp mp sp hfalse hused⟩

/-- Witness for C1 on a concrete four-group tree: a matching metadata group
and a used data group survive, a mismatched system group and a mismatched
data group are temporary. -/
theorem cleanup_leaves_no_temp_groups_witness :
    (List.Pairwise (fun a b => a.objectid + a.offset ≤ b.objectid)
      [⟨0, 4096, 36, 0⟩, ⟨4096, 4096, 18, 0⟩, ⟨8192, 4096, 1, 0⟩,
       (⟨12288, 4096, 9, 100⟩ : btrfs_block_group_item)]) ∧
    (∀ r ∈ [⟨0, 4096, 36, 0⟩, ⟨4096, 4096, 18, 0⟩, ⟨8192, 4096, 1, 0⟩,
       (⟨12288, 4096, 9, 100⟩ : btrfs_block_group_item)], 1 ≤ r.offset) ∧
    (∀ r ∈ [⟨0, 4096, 36, 0⟩, ⟨4096, 4096, 18, 0⟩, ⟨8192, 4096, 1, 0⟩,
       (⟨12288, 4096, 9, 100⟩ : btrfs_block_group_item)],
       r.objectid + r.offset < U64) ∧
    (∃ a rem removed,
      cleanup_temp_chunks ⟨0, 0, 0, 0, 0⟩ 8 32 32 true
        [⟨0, 4096, 36, 0⟩, ⟨4096, 4096, 18, 0⟩, ⟨8192, 4096, 1, 0⟩,
         ⟨12288, 4096, 9, 100⟩] = some (a, rem, removed) ∧
      ∀ bg ∈ rem,
        is_temp_block_group bg 8 32 32 = false ∧
        (bg.used = 0 →
          ((bg.flags &&& BTRFS_BLOCK_GROUP_TYPE_MASK = BTRFS_BLOCK_GROUP_DATA ∨
            bg.flags &&& BTRFS_BLOCK_GROUP_TYPE_MASK =
              (BTRFS_BLOCK_GROUP_DATA ||| BTRFS_BLOCK_GROUP_METADATA)) →
            bg.flags &&& BTRFS_BLOCK_GROUP_PROFILE_MASK =
              8 &&& BTRFS_BLOCK_GROUP_PROFILE_MASK) ∧
          (bg.flags &&& BTRFS_BLOCK_GROUP_TYPE_MASK = BTRFS_BLOCK_GROUP_METADATA →
            bg.flags &&& BTRFS_BLOCK_GROUP_PROFILE_MASK =
              32 &&& BTRFS_BLOCK_GROUP_PROFILE_MASK) ∧
          (bg.flags &&& BTRFS_BLOCK_GROUP_TYPE_MASK = BTRFS_BLOCK_GROUP_SYSTEM →
            bg.flags &&& BTRFS_BLOCK_GROUP_PROFILE_MASK =
              32 &&& BTRFS_BLOCK_GROUP_PROFILE_MASK))) := by
  refine ⟨by decide, by decide, by decide, ?_⟩
  exact cleanup_leaves_no_temp_groups ⟨0, 0, 0, 0, 0⟩ 8 32 32 true
    [⟨0, 4096, 36, 0⟩, ⟨4096, 4096, 18, 0⟩, ⟨8192, 4096, 1, 0⟩,
     ⟨12288, 4096, 9, 100⟩] (by decide) (by decide) (by decide)

/-- C10: the `do_discard` parameter of `cleanup_temp_chunks` has no effect:
runs differing only in it remove the same block groups, make the same ledger
updates, and return the same result. -/
theorem cleanup_do_discard_has_no_effect
    (alloc : mkfs_allocation) (dp mp sp : Nat)
    (items : List btrfs_block_group_item) (d1 d2 : Bool) :
    cleanup_temp_chunks alloc dp mp sp d1 items =
      cleanup_temp_chunks alloc dp mp sp d2 items := rfl

/-- C6: temporary block groups are visited and removed in strictly ascending
objectid (chunk start) order, the final ledger is exactly the left-to-right
fold of the per-removal decrements, and for every removed group the
decrement on the field selected by its type mask takes back exactly the
amount `create_one_raid_group` adds when creating a group with the same
flags and size. -/
theorem cleanup_removal_order_and_ledger
    (alloc : mkfs_allocation) (dp mp sp : Nat) (d : Bool)
    (items : List btrfs_block_group_item)
    (hpair : List.Pairwise (fun a b => a.objectid + a.offset ≤ b.objectid) items)
    (hoff : ∀ r ∈ items, 1 ≤ r.offset)
    (hbound : ∀ r ∈ items, r.objectid + r.offset < U64) :
    ∃ a rem removed,
      cleanup_temp_chunks alloc dp mp sp d items = some (a, rem, removed) ∧
      List.Pairwise (fun x y => x.objectid < y.objectid) removed ∧
      a = List.foldl (fun b it => cleanup_ledger_update it.flags it.offset b)
            alloc removed ∧
      ∀ it ∈ removed, ∀ (b a2 : mkfs_allocation) (bg : btrfs_block_group_item),
        b.data < U64 → b.metadata < U64 → b.system < U64 → b.mixed < U64 →
        create_one_raid_group it.flags it.objectid it.offset b = .ok (a2, bg) →
        cleanup_ledger_update bg.flags bg.offset a2 = b := by
  refine ⟨_, _, _, cleanup_temp_chunks_spec alloc dp mp sp d items hpair hoff hbound,
    ?_, rfl, ?_⟩
  · have hlt : List.Pairwise (fun x y : btrfs_block_group_item =>
        x.objectid < y.objectid) items := by
      refine List.Pairwise.imp_of_mem ?_ hpair
      intro a b ha _ hab
      have := hoff a ha
      omega
    exact hlt.sublist (List.filter_sublist _)
  · intro it hit b a2 bg hd hm hs hx hok
    have hitems : it ∈ items := List.mem_of_mem_filter hit
    have hoffU : it.offset < U64 := by
      have := hbound it hitems
      omega
    by_cases h1 : it.flags &&& BTRFS_BLOCK_GROUP_TYPE_MASK = BTRFS_BLOCK_GROUP_DATA
    · simp only [create_one_raid_group, if_pos h1, Except.ok.injEq, Prod.mk.injEq]
        at hok
      obtain ⟨ha2, hbg⟩ := hok
      subst ha2
      subst hbg
      simp only [cleanup_ledger_update, if_pos h1]
      rw [u64sub_u64add b.data it.offset hd hoffU]
    · by_cases h2 : it.flags &&& BTRFS_BLOCK_GROUP_TYPE_MASK =
          BTRFS_BLOCK_GROUP_METADATA
      · simp only [create_one_raid_group, if_neg h1, if_pos h2, Except.ok.injEq,
          Prod.mk.injEq] at hok
        obtain ⟨ha2, hbg⟩ := hok
        subst ha2
        subst hbg
        simp only [cleanup_ledger_update, if_neg h1, if_pos h2]
        rw [u64sub_u64add b.metadata it.offset hm hoffU]
      · by_cases h3 : it.flags &&& BTRFS_BLOCK_GROUP_TYPE_MASK =
            BTRFS_BLOCK_GROUP_SYSTEM
        · simp only [create_one_raid_group, if_neg h1, if_neg h2, if_pos h3,
            Except.ok.injEq, Prod.mk.injEq] at hok
          obtain ⟨ha2, hbg⟩ := hok
          subst ha2
          subst hbg
          simp only [cleanup_ledger_update, if_neg h1, if_neg h2, if_pos h3]
          rw [u64sub_u64add b.system it.offset hs hoffU]
        · by_cases h4 : it.flags &&& BTRFS_BLOCK_GROUP_TYPE_MASK =
              (BTRFS_BLOCK_GROUP_METADATA ||| BTRFS_BLOCK_GROUP_DATA)
          · simp only [create_one_raid_group, if_neg h1, if_neg h2, if_neg h3,
              if_pos h4, Except.ok.injEq, Prod.mk.injEq] at hok
            obtain ⟨ha2, hbg⟩ := hok
            subst ha2
            subst hbg
            simp only [cleanup_ledger_update, if_neg h1, if_neg h2, if_neg h3,
              if_pos h4]
            rw [u64sub_u64add b.mixed it.offset hx hoffU]
          · simp only [create_one_raid_group, if_neg h1, if_neg h2, if_neg h3,
              if_neg h4] at hok
            exact absurd hok (by simp)

/-- Witness for C6 on a concrete tree with two temporary groups. -/
theorem cleanup_removal_order_and_ledger_witness :
    (List.Pairwise (fun a b => a.objectid + a.offset ≤ b.objectid)
      [⟨0, 4096, 36, 0⟩, ⟨4096, 4096, 18, 0⟩,
       (⟨8192, 4096, 1, 0⟩ : btrfs_block_group_item)]) ∧
    (∀ r ∈ [⟨0, 4096, 36, 0⟩, ⟨4096, 4096, 18, 0⟩,
       (⟨8192, 4096, 1, 0⟩ : btrfs_block_group_item)], 1 ≤ r.offset) ∧
    (∀ r ∈ [⟨0, 4096, 36, 0⟩, ⟨4096, 4096, 18, 0⟩,
       (⟨8192, 4096, 1, 0⟩ : btrfs_block_group_item)],
       r.objectid + r.offset < U64) ∧
    (∃ a rem removed,
      cleanup_temp_chunks ⟨8192, 4096, 0, 4096, 0⟩ 8 32 32 false
        [⟨0, 4096, 36, 0⟩, ⟨4096, 4096, 18, 0⟩, ⟨8192, 4096, 1, 0⟩] =
        some (a, rem, removed) ∧
      List.Pairwise (fun x y => x.objectid < y.objectid) removed ∧
      a = List.foldl (fun b it => cleanup_ledger_update it.flags it.offset b)
            ⟨8192, 4096, 0, 4096, 0⟩ removed ∧
      ∀ it ∈ removed, ∀ (b a2 : mkfs_allocation) (bg : btrfs_block_group_item),
        b.data < U64 → b.metadata < U64 → b.system < U64 → b.mixed < U64 →
        create_one_raid_group it.flags it.objectid it.offset b = .ok (a2, bg) →
        cleanup_ledger_update bg.flags bg.offset a2 = b) := by
  refine ⟨by decide, by decide, by decide, ?_⟩
  exact cleanup_removal_order_and_ledger ⟨8192, 4096, 0, 4096, 0⟩ 8 32 32 false
    [⟨0, 4096, 36, 0⟩, ⟨4096, 4096, 18, 0⟩, ⟨8192, 4096, 1, 0⟩]
    (by decide) (by decide) (by decide)

/-- C8: `pybtrfs_mkfs` calls the temporary-chunk cleaner with the system
profile equal to the (possibly auto-selected) metadata profile, so a
zero-used SYSTEM block group survives cleanup exactly when its profile bits
equal the metadata profile's profile bits. -/
theorem mkfs_cleanup_system_survival
    (metadata_profile : Int) (data_profile : Nat) (mixed : Bool)
    (device_count : Nat) (alloc : mkfs_allocation) (d : Bool)
    (items : List btrfs_block_group_item)
    (hpair : List.Pairwise (fun a b => a.objectid + a.offset ≤ b.objectid) items)
    (hoff : ∀ r ∈ items, 1 ≤ r.offset)
    (hbound : ∀ r ∈ items, r.objectid + r.offset < U64)
    (it : btrfs_block_group_item) (hmem : it ∈ items)
    (hsys : it.flags &&& BTRFS_BLOCK_GROUP_TYPE_MASK = BTRFS_BLOCK_GROUP_SYSTEM)
    (hused : it.used = 0) :
    ∃ a rem removed,
      mkfs_cleanup_stage metadata_profile data_profile mixed device_count
        alloc d items = some (a, rem, removed) ∧
      (it ∈ rem ↔
        it.flags &&& BTRFS_BLOCK_GROUP_PROFILE_MASK =
          select_meta_profile metadata_profile mixed device_count &&&
            BTRFS_BLOCK_GROUP_PROFILE_MASK) := by
  have hspec : mkfs_cleanup_stage metadata_profile data_profile mixed
      device_count alloc d items =
      some (List.foldl (fun a x => cleanup_ledger_update x.flags x.offset a)
              alloc
              (items.filter (fun x => is_temp_block_group x
                (select_data_profile data_profile mixed device_count)
                (select_meta_profile metadata_profile mixed device_count)
                (select_meta_profile metadata_profile mixed device_count))),
            items.filter (fun x => ! is_temp_block_group x
              (select_data_profile data_profile mixed device_count)
              (select_meta_profile metadata_profile mixed device_count)
              (select_meta_profile metadata_profile mixed device_count)),
            items.filter (fun x => is_temp_block_group x
              (select_data_profile data_profile mixed device_count)
              (select_meta_profile metadata_profile mixed device_count)
              (select_meta_profile metadata_profile mixed device_count))) := by
    unfold mkfs_cleanup_stage
    exact cleanup_temp_chunks_spec alloc
      (select_data_profile data_profile mixed device_count)
      (select_meta_profile metadata_profile mixed device_count)
      (select_meta_profile metadata_profile mixed device_count) d items
      hpair hoff hbound
  refine ⟨_, _, _, hspec, ?_⟩
  rw [List.mem_filter]
  have htemp : is_temp_block_group it
      (select_data_profile data_profile mixed device_count)
      (select_meta_profile metadata_profile mixed device_count)
      (select_meta_profile metadata_profile mixed device_count) =
      decide (¬ (it.flags &&& BTRFS_BLOCK_GROUP_PROFILE_MASK =
        select_meta_profile metadata_profile mixed device_count &&&
          BTRFS_BLOCK_GROUP_PROFILE_MASK)) := by
    simp [is_temp_block_group, hused, hsys, BTRFS_BLOCK_GROUP_DATA,
      BTRFS_BLOCK_GROUP_METADATA, BTRFS_BLOCK_GROUP_SYSTEM]
  constructor
  · intro h
    have := h.2
    rw [htemp] at this
    simpa using this
  · intro h
    refine ⟨hmem, ?_⟩
    rw [htemp]
    simpa using h

/-- Witness for C8: with one device and an unspecified metadata profile the
chosen profile is DUP, so a zero-used SYSTEM group carrying RAID1 is removed
(does not survive). -/
theorem mkfs_cleanup_system_survival_witness :
    (List.Pairwise (fun a b => a.objectid + a.offset ≤ b.objectid)
      [⟨0, 4096, 36, 0⟩, (⟨4096, 4096, 18, 0⟩ : btrfs_block_group_item)]) ∧
    (∀ r ∈ [⟨0, 4096, 36, 0⟩, (⟨4096, 4096, 18, 0⟩ : btrfs_block_group_item)],
      1 ≤ r.offset) ∧
    (∀ r ∈ [⟨0, 4096, 36, 0⟩, (⟨4096, 4096, 18, 0⟩ : btrfs_block_group_item)],
      r.objectid + r.offset < U64) ∧
    ((⟨4096, 4096, 18, 0⟩ : btrfs_block_group_item) ∈
      [⟨0, 4096, 36, 0⟩, (⟨4096, 4096, 18, 0⟩ : btrfs_block_group_item)]) ∧
    ((⟨4096, 4096, 18, 0⟩ : btrfs_block_group_item).flags &&&
      BTRFS_BLOCK_GROUP_TYPE_MASK = BTRFS_BLOCK_GROUP_SYSTEM) ∧
    (∃ a rem removed,
      mkfs_cleanup_stage (-1) 0 false 1 ⟨0, 0, 0, 0, 0⟩ true
        [⟨0, 4096, 36, 0⟩, ⟨4096, 4096, 18, 0⟩] = some (a, rem, removed) ∧
      ((⟨4096, 4096, 18, 0⟩ : btrfs_block_group_item) ∈ rem ↔
        (⟨4096, 4096, 18, 0⟩ : btrfs_block_group_item).flags &&&
          BTRFS_BLOCK_GROUP_PROFILE_MASK =
          select_meta_profile (-1) false 1 &&& BTRFS_BLOCK_GROUP_PROFILE_MASK)) := by
  refine ⟨by decide, by decide, by decide, by decide, by decide, ?_⟩
  exact mkfs_cleanup_system_survival (-1) 0 false 1 ⟨0, 0, 0, 0, 0⟩ true
    [⟨0, 4096, 36, 0⟩, ⟨4096, 4096, 18, 0⟩] (by decide) (by decide) (by decide)
    ⟨4096, 4096, 18, 0⟩ (by decide) (by decide) (by decide)

/-- C5: every chunk handed to `create_one_raid_group` has its type mask
matched against exactly one of DATA, METADATA, SYSTEM, METADATA|DATA — the
matching ledger field alone grows by the chunk size — and every other type
mask makes `create_one_raid_group` return the internal-consistency error
`-EINVAL`, aborting the operation. -/
theorem create_one_raid_group_classification
    (t s z : Nat) (a : mkfs_allocation) :
    (t &&& BTRFS_BLOCK_GROUP_TYPE_MASK = BTRFS_BLOCK_GROUP_DATA ∧
      create_one_raid_group t s z a =
        .ok ({ a with data := u64add a.data z }, ⟨s, z, t, 0⟩)) ∨
    (t &&& BTRFS_BLOCK_GROUP_TYPE_MASK = BTRFS_BLOCK_GROUP_METADATA ∧
      create_one_raid_group t s z a =
        .ok ({ a with metadata := u64add a.metadata z }, ⟨s, z, t, 0⟩)) ∨
    (t &&& BTRFS_BLOCK_GROUP_TYPE_MASK = BTRFS_BLOCK_GROUP_SYSTEM ∧
      create_one_raid_group t s z a =
        .ok ({ a with system := u64add a.system z }, ⟨s, z, t, 0⟩)) ∨
    (t &&& BTRFS_BLOCK_GROUP_TYPE_MASK =
        (BTRFS_BLOCK_GROUP_METADATA ||| BTRFS_BLOCK_GROUP_DATA) ∧
      create_one_raid_group t s z a =
        .ok ({ a with mixed := u64add a.mixed z }, ⟨s, z, t, 0⟩)) ∨
    (t &&& BTRFS_BLOCK_GROUP_TYPE_MASK ≠ BTRFS_BLOCK_GROUP_DATA ∧
      t &&& BTRFS_BLOCK_GROUP_TYPE_MASK ≠ BTRFS_BLOCK_GROUP_METADATA ∧
      t &&& BTRFS_BLOCK_GROUP_TYPE_MASK ≠ BTRFS_BLOCK_GROUP_SYSTEM ∧
      t &&& BTRFS_BLOCK_GROUP_TYPE_MASK ≠
        (BTRFS_BLOCK_GROUP_METADATA ||| BTRFS_BLOCK_GROUP_DATA) ∧
      create_one_raid_group t s z a = .error (-EINVAL)) := by
  by_cases h1 : t &&& BTRFS_BLOCK_GROUP_TYPE_MASK = BTRFS_BLOCK_GROUP_DATA
  · refine Or.inl ⟨h1, ?_⟩
    simp only [create_one_raid_group, if_pos h1]
  by_cases h2 : t &&& BTRFS_BLOCK_GROUP_TYPE_MASK = BTRFS_BLOCK_GROUP_METADATA
  · refine Or.inr (Or.inl ⟨h2, ?_⟩)
    simp only [create_one_raid_group, if_neg h1, if_pos h2]
  by_cases h3 : t &&& BTRFS_BLOCK_GROUP_TYPE_MASK = BTRFS_BLOCK_GROUP_SYSTEM
  · refine Or.inr (Or.inr (Or.inl ⟨h3, ?_⟩))
    simp only [create_one_raid_group, if_neg h1, if_neg h2, if_pos h3]
  by_cases h4 : t &&& BTRFS_BLOCK_GROUP_TYPE_MASK =
      (BTRFS_BLOCK_GROUP_METADATA ||| BTRFS_BLOCK_GROUP_DATA)
  · refine Or.inr (Or.inr (Or.inr (Or.inl ⟨h4, ?_⟩)))
    simp only [create_one_raid_group, if_neg h1, if_neg h2, if_neg h3, if_pos h4]
  · refine Or.inr (Or.inr (Or.inr (Or.inr ⟨h1, h2, h3, h4, ?_⟩)))
    simp only [create_one_raid_group, if_neg h1, if_neg h2, if_neg h3, if_neg h4]

/-- A planned allocation with a recognized type mask succeeds and produces
the block group with those flags. -/
theorem create_one_from_plan_ok (t : Nat) (a : mkfs_allocation)
    (c : Nat × Nat) (cs : List (Nat × Nat))
    (h : t &&& 7 = 1 ∨ t &&& 7 = 4 ∨ t &&& 7 = 2 ∨ t &&& 7 = 5) :
    ∃ a2, create_one_from_plan t a (c :: cs) = .ok (a2, cs, ⟨c.1, c.2, t, 0⟩) := by
  rcases h with h | h | h | h
  · exact ⟨{ a with data := u64add a.data c.2 },
      by simp [create_one_from_plan, create_one_raid_group,
        BTRFS_BLOCK_GROUP_TYPE_MASK, BTRFS_BLOCK_GROUP_DATA,
        BTRFS_BLOCK_GROUP_METADATA, BTRFS_BLOCK_GROUP_SYSTEM, h]⟩
  · exact ⟨{ a with metadata := u64add a.metadata c.2 },
      by simp [create_one_from_plan, create_one_raid_group,
        BTRFS_BLOCK_GROUP_TYPE_MASK, BTRFS_BLOCK_GROUP_DATA,
        BTRFS_BLOCK_GROUP_METADATA, BTRFS_BLOCK_GROUP_SYSTEM, h]⟩
  · exact ⟨{ a with system := u64add a.system c.2 },
      by simp [create_one_from_plan, create_one_raid_group,
        BTRFS_BLOCK_GROUP_TYPE_MASK, BTRFS_BLOCK_GROUP_DATA,
        BTRFS_BLOCK_GROUP_METADATA, BTRFS_BLOCK_GROUP_SYSTEM, h]⟩
  · exact ⟨{ a with mixed := u64add a.mixed c.2 },
      by simp [create_one_from_plan, create_one_raid_group,
        BTRFS_BLOCK_GROUP_TYPE_MASK, BTRFS_BLOCK_GROUP_DATA,
        BTRFS_BLOCK_GROUP_METADATA, BTRFS_BLOCK_GROUP_SYSTEM, h]⟩

/-- C4 counterexample: with a zero metadata profile (data profile RAID0, not
mixed), `create_raid_groups` creates only the DATA group: no SYSTEM group is
created at all, contrary to the claim that the SYSTEM group is still created
when the metadata profile is zero. -/
theorem create_raid_groups_zero_meta_counterexample :
    create_raid_groups 8 0 false ⟨0, 0, 0, 0, 0⟩
        [(0, 4096), (4096, 4096), (8192, 4096)] =
      .ok (⟨4096, 0, 0, 0, 0⟩, [⟨0, 4096, 9, 0⟩]) ∧
    (⟨0, 4096, 9, 0⟩ : btrfs_block_group_item).flags &&&
      BTRFS_BLOCK_GROUP_SYSTEM = 0 := by
  exact ⟨rfl, rfl⟩

/-- C4 (amended): `create_raid_groups` creates, in order, when the metadata
profile is nonzero a SYSTEM group at the metadata profile then a METADATA
(DATA|METADATA in mixed mode) group at the metadata profile and then, when
not mixed and the data profile is nonzero, a DATA group at the data
profile; when the metadata profile is zero both the SYSTEM and metadata
groups are skipped and only that optional DATA group is created. -/
theorem create_raid_groups_order
    (data_profile metadata_profile : Nat) (mixed : Bool)
    (alloc : mkfs_allocation) (c1 c2 c3 : Nat × Nat) (cs : List (Nat × Nat))
    (hdp : data_profile &&& 7 = 0) (hmp : metadata_profile &&& 7 = 0) :
    ∃ a bgs,
      create_raid_groups data_profile metadata_profile mixed alloc
        (c1 :: c2 :: c3 :: cs) = .ok (a, bgs) ∧
      bgs.map (fun bg => bg.flags) =
        (if metadata_profile ≠ 0 then
          [BTRFS_BLOCK_GROUP_SYSTEM ||| metadata_profile,
           (if mixed then BTRFS_BLOCK_GROUP_METADATA ||| BTRFS_BLOCK_GROUP_DATA
            else BTRFS_BLOCK_GROUP_METADATA) ||| metadata_profile]
         else []) ++
        (if ¬ mixed ∧ data_profile ≠ 0 then
          [BTRFS_BLOCK_GROUP_DATA ||| data_profile]
         else []) := by
  have hdm : (BTRFS_BLOCK_GROUP_DATA ||| data_profile) &&& 7 = 1 :=
    and_type_mask_or _ _ hdp
  have hsm : (BTRFS_BLOCK_GROUP_SYSTEM ||| metadata_profile) &&& 7 = 2 :=
    and_type_mask_or _ _ hmp
  have hmm : (BTRFS_BLOCK_GROUP_METADATA ||| metadata_profile) &&& 7 = 4 :=
    and_type_mask_or _ _ hmp
  have hxm : ((BTRFS_BLOCK_GROUP_METADATA ||| BTRFS_BLOCK_GROUP_DATA) |||
      metadata_profile) &&& 7 = 5 :=
    and_type_mask_or _ _ hmp
  by_cases hmp0 : metadata_profile = 0
  · by_cases hmix : mixed
    · refine ⟨alloc, [], ?_, ?_⟩
      · simp [create_raid_groups, hmp0, hmix]
      · simp [hmp0, hmix]
    · by_cases hdp0 : data_profile = 0
      · refine ⟨alloc, [], ?_, ?_⟩
        · simp [create_raid_groups, hmp0, hmix, hdp0]
        · simp [hmp0, hmix, hdp0]
      · obtain ⟨a2, hplan⟩ := create_one_from_plan_ok
          (BTRFS_BLOCK_GROUP_DATA ||| data_profile) alloc c1 (c2 :: c3 :: cs)
          (Or.inl hdm)
        refine ⟨a2, [⟨c1.1, c1.2, BTRFS_BLOCK_GROUP_DATA ||| data_profile, 0⟩],
          ?_, ?_⟩
        · simp [create_raid_groups, hmp0, hmix, hdp0, hplan]
        · simp [hmp0, hmix, hdp0]
  · obtain ⟨a1, h1⟩ := create_one_from_plan_ok
      (BTRFS_BLOCK_GROUP_SYSTEM ||| metadata_profile) alloc c1 (c2 :: c3 :: cs)
      (Or.inr (Or.inr (Or.inl hsm)))
    by_cases hmix : mixed
    · obtain ⟨a2, h2⟩ := create_one_from_plan_ok
        ((BTRFS_BLOCK_GROUP_METADATA ||| BTRFS_BLOCK_GROUP_DATA) |||
          metadata_profile) a1 c2 (c3 :: cs)
        (Or.inr (Or.inr (Or.inr hxm)))
      refine ⟨a2,
        [⟨c1.1, c1.2, BTRFS_BLOCK_GROUP_SYSTEM ||| metadata_profile, 0⟩,
         ⟨c2.1, c2.2, (BTRFS_BLOCK_GROUP_METADATA ||| BTRFS_BLOCK_GROUP_DATA) |||
           metadata_profile, 0⟩], ?_, ?_⟩
      · simp [create_raid_groups, hmp0, hmix, h1, h2]
      · simp [hmp0, hmix]
    · by_cases hdp0 : data_profile = 0
      · obtain ⟨a2, h2⟩ := create_one_from_plan_ok
          (BTRFS_BLOCK_GROUP_METADATA ||| metadata_profile) a1 c2 (c3 :: cs)
          (Or.inr (Or.inl hmm))
        refine ⟨a2,
          [⟨c1.1, c1.2, BTRFS_BLOCK_GROUP_SYSTEM ||| metadata_profile, 0⟩,
           ⟨c2.1, c2.2, BTRFS_BLOCK_GROUP_METADATA ||| metadata_profile, 0⟩],
          ?_, ?_⟩
        · simp [create_raid_groups, hmp0, hmix, hdp0, h1, h2]
        · simp [hmp0, hmix, hdp0]
      · obtain ⟨a2, h2⟩ := create_one_from_plan_ok
          (BTRFS_BLOCK_GROUP_METADATA ||| metadata_profile) a1 c2 (c3 :: cs)
          (Or.inr (Or.inl hmm))
        obtain ⟨a3, h3⟩ := create_one_from_plan_ok
          (BTRFS_BLOCK_GROUP_DATA ||| data_profile) a2 c3 cs (Or.inl hdm)
        refine ⟨a3,
          [⟨c1.1, c1.2, BTRFS_BLOCK_GROUP_SYSTEM ||| metadata_profile, 0⟩,
           ⟨c2.1, c2.2, BTRFS_BLOCK_GROUP_METADATA ||| metadata_profile, 0⟩,
           ⟨c3.1, c3.2, BTRFS_BLOCK_GROUP_DATA ||| data_profile, 0⟩], ?_, ?_⟩
        · simp [create_raid_groups, hmp0, hmix, hdp0, h1, h2, h3]
        · simp [hmp0, hmix, hdp0]

/-- Witness for the amended C4 at metadata profile RAID1, data profile
RAID0, not mixed. -/
theorem create_raid_groups_order_witness :
    ((8 : Nat) &&& 7 = 0) ∧ ((16 : Nat) &&& 7 = 0) ∧
    (∃ a bgs,
      create_raid_groups 8 16 false ⟨0, 0, 0, 0, 0⟩
        [(0, 4096), (4096, 4096), (8192, 4096)] = .ok (a, bgs) ∧
      bgs.map (fun bg => bg.flags) =
        (if (16 : Nat) ≠ 0 then
          [BTRFS_BLOCK_GROUP_SYSTEM ||| 16,
           (if False then BTRFS_BLOCK_GROUP_METADATA ||| BTRFS_BLOCK_GROUP_DATA
            else BTRFS_BLOCK_GROUP_METADATA) ||| 16]
         else []) ++
        (if ¬ False ∧ (8 : Nat) ≠ 0 then [BTRFS_BLOCK_GROUP_DATA ||| 8]
         else [])) := by
  refine ⟨by decide, by decide, ?_⟩
  have h := create_raid_groups_order 8 16 false ⟨0, 0, 0, 0, 0⟩
    (0, 4096) (4096, 4096) (8192, 4096) [] (by decide) (by decide)
  simpa using h

/-- C7: an unspecified (negative) metadata profile becomes the multi-device
default when more than one device is given and the single-device default
otherwise, forced to none (0) in mixed mode; an unspecified (zero) data
profile becomes the multi-device data default only when not mixed and more
than one device is given, and stays 0 otherwise. -/
theorem mkfs_profile_defaults (mp : Int) (dp : Nat) (mixed : Bool) (dc : Nat)
    (hmp : mp < 0) (hdp : dp = 0) :
    select_meta_profile mp mixed dc =
      (if mixed then 0
       else if dc > 1 then BTRFS_MKFS_DEFAULT_META_MULTI_DEVICE
       else BTRFS_MKFS_DEFAULT_META_ONE_DEVICE) ∧
    select_data_profile dp mixed dc =
      (if ¬ mixed ∧ dc > 1 then BTRFS_MKFS_DEFAULT_DATA_MULTI_DEVICE else 0) := by
  constructor
  · by_cases hmix : mixed <;> simp [select_meta_profile, hmp, hmix]
  · subst hdp
    by_cases hmix : mixed <;> by_cases hdc : dc > 1 <;>
      simp [select_data_profile, hmix, hdc]

/-- Witness for C7: unspecified profiles, two devices, not mixed. -/
theorem mkfs_profile_defaults_witness :
    ((-1 : Int) < 0) ∧ ((0 : Nat) = 0) ∧
    select_meta_profile (-1) false 2 = BTRFS_MKFS_DEFAULT_META_MULTI_DEVICE ∧
    select_data_profile 0 false 2 = BTRFS_MKFS_DEFAULT_DATA_MULTI_DEVICE := by
  have h := mkfs_profile_defaults (-1) 0 false 2 (by decide) rfl
  refine ⟨by decide, rfl, ?_, ?_⟩
  · rw [h.1]
    simp
  · rw [h.2]
    simp

/-- An if-then-else whose then-branch only ors in more bits preserves an
already-present mask. -/
theorem ite_or_preserves (P : Prop) [Decidable P] (x y c : Nat)
    (h : x &&& c = c) : (if P then x ||| y else x) &&& c = c := by
  split
  · exact and_mask_of_or x y c h
  · exact h

/-- C9: whenever the post-default data or metadata profile carries a
RAID5/RAID6 bit the RAID56 incompat flag is present in the built feature
word, and whenever either carries a RAID1C3/RAID1C4 bit the RAID1C34
incompat flag is present — regardless of the caller's `features` argument
and the default feature set. -/
theorem mkfs_incompat_raid_features
    (base features dp mp : Nat) (mixed : Bool) (nodesize pagesize : Nat) :
    ((dp ||| mp) &&& BTRFS_BLOCK_GROUP_RAID56_MASK ≠ 0 →
      build_incompat_flags base features dp mp mixed nodesize pagesize &&&
        BTRFS_FEATURE_INCOMPAT_RAID56 = BTRFS_FEATURE_INCOMPAT_RAID56) ∧
    ((dp ||| mp) &&& (BTRFS_BLOCK_GROUP_RAID1C3 ||| BTRFS_BLOCK_GROUP_RAID1C4)
        ≠ 0 →
      build_incompat_flags base features dp mp mixed nodesize pagesize &&&
        BTRFS_FEATURE_INCOMPAT_RAID1C34 = BTRFS_FEATURE_INCOMPAT_RAID1C34) := by
  constructor
  · intro h
    simp only [build_incompat_flags]
    rw [if_pos h]
    exact ite_or_preserves _ _ _ _ (ite_or_preserves _ _ _ _
      (or_and_self_mask _ _))
  · intro h
    simp only [build_incompat_flags]
    rw [if_pos h]
    exact ite_or_preserves _ _ _ _ (or_and_self_mask _ _)

/-- Witness for C9: data profile RAID5, metadata profile RAID1C3, empty
feature argument. -/
theorem mkfs_incompat_raid_features_witness :
    (((128 : Nat) ||| 512) &&& BTRFS_BLOCK_GROUP_RAID56_MASK ≠ 0) ∧
    (((128 : Nat) ||| 512) &&&
      (BTRFS_BLOCK_GROUP_RAID1C3 ||| BTRFS_BLOCK_GROUP_RAID1C4) ≠ 0) ∧
    build_incompat_flags 0 0 128 512 false 16384 4096 &&&
      BTRFS_FEATURE_INCOMPAT_RAID56 = BTRFS_FEATURE_INCOMPAT_RAID56 ∧
    build_incompat_flags 0 0 128 512 false 16384 4096 &&&
      BTRFS_FEATURE_INCOMPAT_RAID1C34 = BTRFS_FEATURE_INCOMPAT_RAID1C34 := by
  refine ⟨by decide, by decide, ?_, ?_⟩
  · exact (mkfs_incompat_raid_features 0 0 128 512 false 16384 4096).1 (by decide)
  · exact (mkfs_incompat_raid_features 0 0 128 512 false 16384 4096).2 (by decide)

/-- C2 counterexample: two devices where only the second worker fails: the
model still runs `make_btrfs` and commits the bootstrap transactions before
the failure is detected at the attach stage, so the operation does not fail
before tree mutations are committed, contrary to the claim. -/
theorem mkfs_prepare_failure_counterexample :
    pybtrfs_mkfs_model [(0, 1048576), (-5, 1048576)] 0 =
      ⟨-5, true, true, true⟩ ∧
    (pybtrfs_mkfs_model [(0, 1048576), (-5, 1048576)] 0).ret ≠ 0 ∧
    (pybtrfs_mkfs_model [(0, 1048576), (-5, 1048576)] 0).committed = true := by
  refine ⟨by decide, by decide, by decide⟩

/-- C2 (amended): a preparation failure of the first device aborts before
`make_btrfs` — no superblock write, no commit — propagating that worker's
error with all handles closed; a preparation failure of a later device is
detected only at the attach stage, after the bootstrap commits, and then
the first such worker's error is the one propagated (handles again all
closed). -/
theorem mkfs_prepare_failure_abort (d0 : Int × Nat) (rest : List (Int × Nat))
    (byte_count : Nat) :
    (d0.1 ≠ 0 → pybtrfs_mkfs_model (d0 :: rest) byte_count =
      ⟨d0.1, false, false, true⟩) ∧
    (∀ d : Int × Nat, d0.1 = 0 →
      ¬ (byte_count ≠ 0 ∧
         byte_count > prepare_usable_size byte_count d0.2) →
      rest.find? (fun x => x.1 != 0) = some d →
      pybtrfs_mkfs_model (d0 :: rest) byte_count = ⟨d.1, true, true, true⟩) := by
  constructor
  · intro h
    simp [pybtrfs_mkfs_model, h]
  · intro d h0 hbc hfind
    simp [pybtrfs_mkfs_model, h0, hbc, hfind]

/-- Witness for the amended C2: a failing first device aborts clean; a
failing second device propagates its error after the commits. -/
theorem mkfs_prepare_failure_abort_witness :
    pybtrfs_mkfs_model [(3, 512)] 0 = ⟨3, false, false, true⟩ ∧
    pybtrfs_mkfs_model [(0, 1024), (-5, 1024)] 0 = ⟨-5, true, true, true⟩ := by
  constructor
  · exact (mkfs_prepare_failure_abort (3, 512) [] 0).1 (by decide)
  · exact (mkfs_prepare_failure_abort (0, 1024) [(-5, 1024)] 0).2
      (-5, 1024) rfl (by decide) (by decide)

/-- C3: a nonzero requested byte count strictly larger than the first
device's probed usable size fails with `-ENOSPC` before `make_btrfs` is
invoked, so no superblock signature is written to the device. -/
theorem mkfs_byte_count_too_large (probed : Nat) (rest : List (Int × Nat))
    (byte_count : Nat) (hnz : byte_count ≠ 0) (hgt : byte_count > probed) :
    pybtrfs_mkfs_model ((0, probed) :: rest) byte_count =
      ⟨-ENOSPC, false, false, true⟩ := by
  have husable : prepare_usable_size byte_count probed = probed := by
    simp [prepare_usable_size, hnz]
    omega
  simp [pybtrfs_mkfs_model, husable, hnz, hgt]

/-- Witness for C3: requesting 2048 bytes on a 1024-byte device. -/
theorem mkfs_byte_count_too_large_witness :
    ((2048 : Nat) ≠ 0) ∧ ((2048 : Nat) > 1024) ∧
    pybtrfs_mkfs_model [(0, 1024)] 2048 = ⟨-ENOSPC, false, false, true⟩ :=
  ⟨by decide, by decide,
   mkfs_byte_count_too_large 1024 [] 2048 (by decide) (by decide)⟩

end Pybtrfs
